import Mathlib

/-!
Verification development for the `thermostate` package: a unit-aware
thermodynamic state abstraction.  The repository itself ships tutorial
notebooks; the core (`State`, the dimension/pair registry, `Q_`,
`set_default_units`) lives outside the shipped sources, so the definitions
below are modelled from the specification and from the behaviour recorded
in `docs/Tutorial.ipynb` (error tracebacks and printed outputs).

Conventions of the embedding:
* physical dimensions are exponent vectors over (mass, length, time,
  temperature);
* a `Quantity` is stored as its magnitude converted to the canonical
  (SI) unit of its dimension, mirroring the equality semantics of the
  external quantity library (two quantities are equal iff their
  dimensions agree and their canonical magnitudes agree);
* the equation-of-state backend is an explicit function argument, so
  "fails before any backend call" is stated as "the result is the same
  for every backend";
* the process-wide default unit-system is an explicit read-time
  parameter (the spec directs modelling the global as explicit
  configuration consulted at access time).
-/

/-- Physical dimension: integer exponents over the base dimensions
mass, length, time, temperature. -/
structure Dimension where
  mass : Int
  length : Int
  time : Int
  temp : Int
deriving DecidableEq, Repr

/-- Dimension of temperature. -/
def tempDim : Dimension := ⟨0, 0, 0, 1⟩

/-- Dimension of pressure (mass / length / time²). -/
def pressureDim : Dimension := ⟨1, -1, -2, 0⟩

/-- Dimension of mass-specific volume (length³ / mass). -/
def volDim : Dimension := ⟨-1, 3, 0, 0⟩

/-- Dimension of mass-specific energy (length² / time²). -/
def energyDim : Dimension := ⟨0, 2, -2, 0⟩

/-- Dimension of mass-specific entropy and heat capacity
(length² / time² / temperature). -/
def entropyDim : Dimension := ⟨0, 2, -2, -1⟩

/-- The trivial dimension (dimensionless quantities such as quality). -/
def dimlessDim : Dimension := ⟨0, 0, 0, 0⟩

/-- A physical quantity, stored as its magnitude in the canonical (SI)
unit of its dimension.  Mirrors the external quantity library's equality
semantics: equal iff dimension and canonical magnitude agree. -/
structure Quantity where
  magnitude : ℚ
  dim : Dimension
deriving DecidableEq, Repr

/-- A named unit: its dimension and the affine conversion into the
canonical unit (`canonical = scale * value + offset`). -/
structure UnitDef where
  dim : Dimension
  scale : ℚ
  offset : ℚ
deriving DecidableEq, Repr

/-- Pounds per kilogram (exact). -/
def lbKg : ℚ := 45359237 / 100000000

/-- Joules per IT British thermal unit (exact). -/
def btuJ : ℚ := 105505585262 / 100000000

/-- Modelled from the spec: the unit table of the external quantity
library, restricted to the units exercised in the repository's
notebooks.  Each entry gives the dimension and the affine conversion to
the canonical SI unit. -/
def unitOf : String → Option UnitDef
  | "K" => some ⟨tempDim, 1, 0⟩
  | "degC" => some ⟨tempDim, 1, 27315 / 100⟩
  | "degF" => some ⟨tempDim, 5 / 9, 45967 / 180⟩
  | "degR" => some ⟨tempDim, 5 / 9, 0⟩
  | "Pa" => some ⟨pressureDim, 1, 0⟩
  | "bar" => some ⟨pressureDim, 100000, 0⟩
  | "atm" => some ⟨pressureDim, 101325, 0⟩
  | "psi" => some ⟨pressureDim, (45359237 / 100000000) * (980665 / 100000) / (64516 / 100000000), 0⟩
  | "dimensionless" => some ⟨dimlessDim, 1, 0⟩
  | "percent" => some ⟨dimlessDim, 1 / 100, 0⟩
  | "J/kg" => some ⟨energyDim, 1, 0⟩
  | "kJ/kg" => some ⟨energyDim, 1000, 0⟩
  | "J/(kg*K)" => some ⟨entropyDim, 1, 0⟩
  | "kJ/(kg*K)" => some ⟨entropyDim, 1000, 0⟩
  | "m**3/kg" => some ⟨volDim, 1, 0⟩
  | "ft**3/lb" => some ⟨volDim, (3048 / 10000) ^ 3 / (45359237 / 100000000), 0⟩
  | "BTU/lb" => some ⟨energyDim, (105505585262 / 100000000) / (45359237 / 100000000), 0⟩
  | "BTU/(lb*degR)" => some ⟨entropyDim, (105505585262 / 100000000) / (45359237 / 100000000) / (5 / 9), 0⟩
  | _ => none

/-- Modelled from the spec: the quantity constructor `Q_(value, unit)`
of the external quantity library.  Looks the unit up and converts the
magnitude to canonical units; `none` for an unrecognized unit string. -/
def Q_ (value : ℚ) (unit : String) : Option Quantity :=
  (unitOf unit).map fun ud => ⟨ud.scale * value + ud.offset, ud.dim⟩

/-- The property symbols of a thermodynamic state: temperature,
pressure, specific volume, specific internal energy, specific enthalpy,
specific entropy, quality, the two specific heats, and phase. -/
inductive PropSymbol where
  | T | p | v | u | h | s | x | cp | cv | phase
deriving DecidableEq, Repr, Fintype

/-- Display name of a property symbol, as used in error messages. -/
def propName : PropSymbol → String
  | .T => "T"
  | .p => "p"
  | .v => "v"
  | .u => "u"
  | .h => "h"
  | .s => "s"
  | .x => "x"
  | .cp => "cp"
  | .cv => "cv"
  | .phase => "phase"

/-- Modelled from the spec: the registry's expected physical dimension
for each settable property symbol (`State._dimensions`); the derived
symbols (specific heats, phase) have no entry. -/
def expectedDim : PropSymbol → Option Dimension
  | .T => some tempDim
  | .p => some pressureDim
  | .v => some volDim
  | .u => some energyDim
  | .h => some energyDim
  | .s => some entropyDim
  | .x => some dimlessDim
  | .cp => none
  | .cv => none
  | .phase => none

/-- Rendering of a dimension in the style of the quantity library's
error messages (as recorded in the tutorial's traceback). -/
def dimName (d : Dimension) : String :=
  if d = tempDim then "[temperature]"
  else if d = pressureDim then "[mass] / [length] / [time] ** 2"
  else if d = volDim then "[length] ** 3 / [mass]"
  else if d = energyDim then "[length] ** 2 / [time] ** 2"
  else if d = entropyDim then "[length] ** 2 / [time] ** 2 / [temperature]"
  else if d = dimlessDim then "dimensionless"
  else "unknown"

/-- Deterministic index used to canonicalize the ordering of a property
pair, so that a pair and its reverse resolve identically. -/
def propIdx : PropSymbol → Nat
  | .T => 0
  | .p => 1
  | .v => 2
  | .u => 3
  | .h => 4
  | .s => 5
  | .x => 6
  | .cp => 7
  | .cv => 8
  | .phase => 9

/-- Canonical (index-sorted) form of an unordered symbol pair. -/
def unordPair (a b : PropSymbol) : PropSymbol × PropSymbol :=
  if propIdx a ≤ propIdx b then (a, b) else (b, a)

/-- The supported independent property pairs (in canonical order),
as enumerated in the tutorial: Tp, Ts, Tv, Tx, pu, ps, pv, ph, px,
uv, sv, hs, hv, closed under reversal via `unordPair`. -/
def allowedPairs : List (PropSymbol × PropSymbol) :=
  [(.T, .p), (.T, .v), (.T, .s), (.T, .x),
   (.p, .v), (.p, .u), (.p, .h), (.p, .s), (.p, .x),
   (.v, .u), (.v, .h), (.v, .s), (.h, .s)]

/-- The backend-excluded property pairs (in canonical order): `Tu`,
`Th`, and `us`, unsupported due to limitations in the external
equation-of-state library. -/
def unsupportedPairs : List (PropSymbol × PropSymbol) :=
  [(.T, .u), (.T, .h), (.u, .s)]

/-- ASCII lower-casing of one character (used for the case-insensitive
substance lookup). -/
def lowerChar (c : Char) : Char :=
  if 'A' ≤ c ∧ c ≤ 'Z' then Char.ofNat (c.toNat + 32) else c

/-- ASCII lower-casing of a string, mirroring the `str.lower()` call of
the case-insensitive substance lookup. -/
def strLower (t : String) : String :=
  ⟨t.data.map lowerChar⟩

/-- The supported substances (lower-cased; matching is
case-insensitive). -/
def allowedSubstances : List String :=
  ["water", "air", "r134a", "r22", "propane", "ammonia",
   "isobutane", "carbondioxide", "oxygen", "nitrogen"]

/-- The classes of `StateError` raised by the core, per the spec's
error taxonomy. -/
inductive StateErrorKind where
  | unknownSubstance (name : String)
  | unknownProperty (sym : PropSymbol)
  | arity (n : Nat)
  | unsupportedPair (a b : PropSymbol)
  | dimensions (sym : PropSymbol) (required : Dimension)
  | backend (reason : String)
  | invalidUnitSystem (selector : String)
deriving DecidableEq, Repr

/-- The message carried by a `StateError`; the dimension-mismatch
message is the one recorded in the tutorial's traceback. -/
def errorMessage : StateErrorKind → String
  | .unknownSubstance n => "Substance is not supported: " ++ n
  | .unknownProperty sym => "Unknown property: " ++ propName sym
  | .arity n => "Incorrect number of independent properties specified: " ++ toString n
  | .unsupportedPair a b => "The pair of input properties entered is not supported: " ++ propName a ++ propName b
  | .dimensions sym required => "The dimensions for " ++ propName sym ++ " must be " ++ dimName required
  | .backend reason => reason
  | .invalidUnitSystem sel => "Invalid unit system selector: " ++ sel

/-- The full record of canonical-unit property values returned by one
backend evaluation; quality is `none` outside the two-phase region. -/
structure BackendResult where
  T : ℚ
  p : ℚ
  v : ℚ
  u : ℚ
  h : ℚ
  s : ℚ
  x : Option ℚ
  cp : ℚ
  cv : ℚ
  phase : String
deriving DecidableEq, Repr

/-- Look a property value up in a backend result (numeric properties
only; quality is optional, phase is not numeric). -/
def BackendResult.value (r : BackendResult) : PropSymbol → Option ℚ
  | .T => some r.T
  | .p => some r.p
  | .v => some r.v
  | .u => some r.u
  | .h => some r.h
  | .s => some r.s
  | .x => r.x
  | .cp => some r.cp
  | .cv => some r.cv
  | .phase => none

/-- The external equation-of-state backend: substance plus two
(canonical symbol, canonical value) pairs, returning every derivable
property in canonical units or a failure reason.  Out of scope for the
core, hence a function parameter. -/
def Backend : Type :=
  String → PropSymbol → ℚ → PropSymbol → ℚ → Except String BackendResult

/-- The two recognized unit systems for display. -/
inductive UnitSystem where
  | SI
  | EE
deriving DecidableEq, Repr

/-- A fully fixed thermodynamic state: substance, the resolved
canonical input pair, the cached canonical-unit property values, the
optional instance-level unit-system override, and the optional label. -/
structure State where
  substance : String
  pair : PropSymbol × PropSymbol
  props : BackendResult
  units : Option UnitSystem
  label : Option String
deriving DecidableEq, Repr

/-- Modelled from the spec: the part of `State` construction that runs
after arity validation, on the pair already in canonical order.
Validates the pair against the registry and each quantity's dimension
against the registry's expected dimension — both before the single
backend call — then caches every value the backend returns. -/
def State.makeOrdered (be : Backend) (substance : String)
    (pa pb : PropSymbol × Quantity)
    (usys : Option UnitSystem) (lbl : Option String) :
    Except StateErrorKind State :=
  if (pa.1, pb.1) ∈ allowedPairs then
    match expectedDim pa.1 with
    | none => .error (.unknownProperty pa.1)
    | some d1 =>
      if pa.2.dim = d1 then
        match expectedDim pb.1 with
        | none => .error (.unknownProperty pb.1)
        | some d2 =>
          if pb.2.dim = d2 then
            match be (strLower substance) pa.1 pa.2.magnitude pb.1 pb.2.magnitude with
            | .error msg => .error (.backend msg)
            | .ok res =>
              .ok ⟨strLower substance, (pa.1, pb.1), res, usys, lbl⟩
          else .error (.dimensions pb.1 d2)
      else .error (.dimensions pa.1 d1)
  else .error (.unsupportedPair pa.1 pb.1)

/-- Modelled from the spec: `State` construction.  Validates the
substance, the arity (exactly two keyword properties), canonicalizes
the pair ordering, and delegates to `State.makeOrdered`. -/
def State.make (be : Backend) (substance : String)
    (kwargs : List (PropSymbol × Quantity))
    (usys : Option UnitSystem) (lbl : Option String) :
    Except StateErrorKind State :=
  if strLower substance ∈ allowedSubstances then
    match kwargs with
    | [pa, pb] =>
      if propIdx pa.1 ≤ propIdx pb.1 then
        State.makeOrdered be substance pa pb usys lbl
      else
        State.makeOrdered be substance pb pa usys lbl
    | _ => .error (.arity kwargs.length)
  else .error (.unknownSubstance substance)

/-- The canonical (SI) value stored for a property symbol. -/
def canonicalValue (st : State) (sym : PropSymbol) : Option ℚ :=
  st.props.value sym

/-- The unit-system active for a read of `st` when the process-wide
default is `g`: the instance override if set, otherwise `g`. -/
def activeUnits (st : State) (g : Option UnitSystem) : Option UnitSystem :=
  match st.units with
  | some u => some u
  | none => g

/-- The canonical unit of each property symbol (scale 1, offset 0). -/
def canonicalUnit : PropSymbol → UnitDef
  | .T => ⟨tempDim, 1, 0⟩
  | .p => ⟨pressureDim, 1, 0⟩
  | .v => ⟨volDim, 1, 0⟩
  | .u => ⟨energyDim, 1, 0⟩
  | .h => ⟨energyDim, 1, 0⟩
  | .s => ⟨entropyDim, 1, 0⟩
  | .x => ⟨dimlessDim, 1, 0⟩
  | .cp => ⟨entropyDim, 1, 0⟩
  | .cv => ⟨entropyDim, 1, 0⟩
  | .phase => ⟨dimlessDim, 1, 0⟩

/-- Modelled from the spec: the preferred display unit per property
symbol per unit system.  With no active system the canonical unit is
used unchanged; the SI kJ-based entropy/energy units and the EE
BTU-based units are the ones observed in the tutorial's outputs. -/
def displayUnit : Option UnitSystem → PropSymbol → UnitDef
  | none, sym => canonicalUnit sym
  | some .SI, .u => ⟨energyDim, 1000, 0⟩
  | some .SI, .h => ⟨energyDim, 1000, 0⟩
  | some .SI, .s => ⟨entropyDim, 1000, 0⟩
  | some .SI, .cp => ⟨entropyDim, 1000, 0⟩
  | some .SI, .cv => ⟨entropyDim, 1000, 0⟩
  | some .SI, sym => canonicalUnit sym
  | some .EE, .T => ⟨tempDim, 5 / 9, 45967 / 180⟩
  | some .EE, .p => ⟨pressureDim, (45359237 / 100000000) * (980665 / 100000) / (64516 / 100000000), 0⟩
  | some .EE, .v => ⟨volDim, (3048 / 10000) ^ 3 / (45359237 / 100000000), 0⟩
  | some .EE, .u => ⟨energyDim, (105505585262 / 100000000) / (45359237 / 100000000), 0⟩
  | some .EE, .h => ⟨energyDim, (105505585262 / 100000000) / (45359237 / 100000000), 0⟩
  | some .EE, .s => ⟨entropyDim, (105505585262 / 100000000) / (45359237 / 100000000) / (5 / 9), 0⟩
  | some .EE, .cp => ⟨entropyDim, (105505585262 / 100000000) / (45359237 / 100000000) / (5 / 9), 0⟩
  | some .EE, .cv => ⟨entropyDim, (105505585262 / 100000000) / (45359237 / 100000000) / (5 / 9), 0⟩
  | some .EE, .x => ⟨dimlessDim, 1, 0⟩
  | some .EE, .phase => ⟨dimlessDim, 1, 0⟩

/-- Convert a canonical magnitude into a display unit. -/
def toUnit (ud : UnitDef) (canonical : ℚ) : ℚ :=
  (canonical - ud.offset) / ud.scale

/-- A property read: the cached canonical value converted, at access
time, into the preferred unit of the unit system active for this state
under process-wide default `g`. -/
def State.read (st : State) (g : Option UnitSystem) (sym : PropSymbol) : Option ℚ :=
  (canonicalValue st sym).map (toUnit (displayUnit (activeUnits st g) sym))

/-- The quality accessor: `none` is the "not applicable" sentinel. -/
def State.x (st : State) (g : Option UnitSystem) : Option ℚ :=
  st.read g .x

/-- The phase accessor (a string, as returned by the backend). -/
def State.phase (st : State) : String :=
  st.props.phase

/-- Setting the instance-level unit-system override (the writable
`units` field on a constructed state). -/
def setUnits (st : State) (o : Option UnitSystem) : State :=
  { st with units := o }

/-- Modelled from the spec: state equality — substances match and every
canonical property value matches; the display unit systems, the label
and the resolved input pair play no role. -/
def State.eq (a b : State) : Bool :=
  decide (a.substance = b.substance ∧ a.props = b.props)

/-- The backend's phase label for the two-phase region. -/
def twoPhaseName : String := "twophase"

/-- A backend result is phase-consistent when quality is absent outside
the two-phase region and a dimensionless fraction in [0, 1] inside it
(the spec's invariant on quality). -/
def BackendResult.phaseConsistent (r : BackendResult) : Prop :=
  (r.phase ≠ twoPhaseName → r.x = none) ∧
  (r.phase = twoPhaseName → ∃ q, r.x = some q ∧ 0 ≤ q ∧ q ≤ 1)

/-- A backend is valid when every successful evaluation is
phase-consistent. -/
def ValidBackend (be : Backend) : Prop :=
  ∀ sub s1 v1 s2 v2 r, be sub s1 v1 s2 v2 = .ok r → r.phaseConsistent

/-- A backend echoes its inputs when every successful evaluation
reports, for each of the two input symbols, exactly the input value. -/
def EchoBackend (be : Backend) : Prop :=
  ∀ sub s1 v1 s2 v2 r, be sub s1 v1 s2 v2 = .ok r →
    r.value s1 = some v1 ∧ r.value s2 = some v2

/-- The canonical-unit property values recorded in the tutorial for
state 1 of the tutorial, water fixed by T = 400 K and p = 1 atm
(cell-25 of `docs/Tutorial.ipynb`). -/
def recordedWater1 : BackendResult where
  T := 400.0
  p := 101324.99999999953
  v := 1.801983936953226
  u := 2547715.3635084038
  h := 2730301.3859201893
  s := 7496.2021523754065
  x := none
  cp := 2009.2902478486988
  cv := 1509.1482452129906
  phase := "gas"

/-- A backend seeded with the tutorial's recorded evaluation of water
at 400 K and 1 atm; the real backend is out of scope, so its recorded
output stands in for it. -/
def recordedBackend1 : Backend :=
  fun _ _ _ _ _ => .ok recordedWater1

/-- The specific enthalpy read back in the tutorial for state 5, which
was fixed by h = 2000 kJ/kg and s = 3.10 kJ/(kg*K) (cell-44). -/
def recordedH5read : ℚ := 1999999.9999990265

/-- The specific entropy read back in the tutorial for state 5
(cell-44). -/
def recordedS5read : ℚ := 3099.999999999998

/-- The input temperature of the tutorial's state 1 (400 K). -/
def qT400 : Quantity := ⟨400, tempDim⟩

/-- The input pressure of the tutorial's state 1 (1 atm = 101325 Pa). -/
def qPatm : Quantity := ⟨101325, pressureDim⟩

/-- The state the tutorial's recorded construction of water at
T = 400 K, p = 1 atm produces in this embedding. -/
def stTutorial1 : State := ⟨"water", (.T, .p), recordedWater1, none, none⟩

/-- A backend result that echoes the two input properties exactly and
reports a single-phase point (used to exercise the round-trip
contract). -/
def echoResult (s1 : PropSymbol) (v1 : ℚ) (s2 : PropSymbol) (v2 : ℚ) : BackendResult where
  T := if s1 = .T then v1 else if s2 = .T then v2 else 0
  p := if s1 = .p then v1 else if s2 = .p then v2 else 0
  v := if s1 = .v then v1 else if s2 = .v then v2 else 0
  u := if s1 = .u then v1 else if s2 = .u then v2 else 0
  h := if s1 = .h then v1 else if s2 = .h then v2 else 0
  s := if s1 = .s then v1 else if s2 = .s then v2 else 0
  x := if s1 = .x then some v1 else if s2 = .x then some v2 else none
  cp := if s1 = .cp then v1 else if s2 = .cp then v2 else 0
  cv := if s1 = .cv then v1 else if s2 = .cv then v2 else 0
  phase := "gas"

/-- A backend that echoes its two inputs whenever they are distinct
value-carrying symbols, and fails otherwise. -/
def echoBackend : Backend :=
  fun _ s1 v1 s2 v2 =>
    if s1 ≠ s2 ∧ s1 ≠ .phase ∧ s2 ≠ .phase then .ok (echoResult s1 v1 s2 v2)
    else .error "input pair not supported"

/-- The state `echoBackend` produces for water at T = 400 K,
p = 101325 Pa. -/
def stEcho : State := ⟨"water", (.T, .p), echoResult .T 400 .p 101325, none, none⟩

lemma propIdx_injective : ∀ a b : PropSymbol, propIdx a = propIdx b → a = b := by
  decide

lemma self_pair_not_allowed : ∀ a : PropSymbol, (a, a) ∉ allowedPairs := by
  decide

lemma allowed_expectedDim_isSome :
    ∀ a b : PropSymbol, (a, b) ∈ allowedPairs →
      (expectedDim a).isSome ∧ (expectedDim b).isSome := by
  decide

lemma unsupported_not_allowed :
    ∀ a b : PropSymbol, (a, b) ∈ unsupportedPairs → (a, b) ∉ allowedPairs := by
  decide

lemma makeOrdered_not_allowed (be : Backend) (substance : String)
    (pa pb : PropSymbol × Quantity) (usys : Option UnitSystem) (lbl : Option String)
    (hp : (pa.1, pb.1) ∉ allowedPairs) :
    State.makeOrdered be substance pa pb usys lbl = .error (.unsupportedPair pa.1 pb.1) := by
  simp [State.makeOrdered, hp]

lemma makeOrdered_dim_fst (be : Backend) (substance : String)
    (pa pb : PropSymbol × Quantity) (usys : Option UnitSystem) (lbl : Option String)
    (d1 : Dimension)
    (hp : (pa.1, pb.1) ∈ allowedPairs) (hd : expectedDim pa.1 = some d1)
    (hne : pa.2.dim ≠ d1) :
    State.makeOrdered be substance pa pb usys lbl = .error (.dimensions pa.1 d1) := by
  simp [State.makeOrdered, hp, hd, hne]

lemma makeOrdered_dim_snd (be : Backend) (substance : String)
    (pa pb : PropSymbol × Quantity) (usys : Option UnitSystem) (lbl : Option String)
    (d1 d2 : Dimension)
    (hp : (pa.1, pb.1) ∈ allowedPairs) (hd1 : expectedDim pa.1 = some d1)
    (hfit : pa.2.dim = d1) (hd2 : expectedDim pb.1 = some d2)
    (hne : pb.2.dim ≠ d2) :
    State.makeOrdered be substance pa pb usys lbl = .error (.dimensions pb.1 d2) := by
  simp [State.makeOrdered, hp, hd1, hfit, hd2, hne]

lemma makeOrdered_ok_backend (be : Backend) (substance : String)
    (pa pb : PropSymbol × Quantity) (usys : Option UnitSystem) (lbl : Option String)
    (st : State)
    (hok : State.makeOrdered be substance pa pb usys lbl = .ok st) :
    be (strLower substance) pa.1 pa.2.magnitude pb.1 pb.2.magnitude = .ok st.props := by
  unfold State.makeOrdered at hok
  split at hok
  · split at hok
    · exact absurd hok (by simp)
    · split at hok
      · split at hok
        · exact absurd hok (by simp)
        · split at hok
          · split at hok
            · exact absurd hok (by simp)
            · rename_i heq
              cases hok
              exact heq
          · exact absurd hok (by simp)
      · exact absurd hok (by simp)
  · exact absurd hok (by simp)

lemma make_two (be : Backend) (substance : String)
    (pa pb : PropSymbol × Quantity) (usys : Option UnitSystem) (lbl : Option String)
    (hsub : strLower substance ∈ allowedSubstances) :
    State.make be substance [pa, pb] usys lbl =
      if propIdx pa.1 ≤ propIdx pb.1 then
        State.makeOrdered be substance pa pb usys lbl
      else
        State.makeOrdered be substance pb pa usys lbl := by
  simp [State.make, hsub]

lemma make_swap (be : Backend) (substance : String)
    (pa pb : PropSymbol × Quantity) (usys : Option UnitSystem) (lbl : Option String) :
    State.make be substance [pa, pb] usys lbl =
    State.make be substance [pb, pa] usys lbl := by
  by_cases hsub : strLower substance ∈ allowedSubstances
  · rw [make_two be substance pa pb usys lbl hsub,
      make_two be substance pb pa usys lbl hsub]
    rcases le_or_lt (propIdx pa.1) (propIdx pb.1) with hle | hlt
    · rcases le_or_lt (propIdx pb.1) (propIdx pa.1) with hle' | hlt'
      · have hsym : pa.1 = pb.1 := propIdx_injective _ _ (le_antisymm hle hle')
        rw [if_pos hle, if_pos hle',
          makeOrdered_not_allowed be substance pa pb usys lbl
            (by rw [hsym]; exact self_pair_not_allowed _),
          makeOrdered_not_allowed be substance pb pa usys lbl
            (by rw [hsym]; exact self_pair_not_allowed _), hsym]
      · rw [if_pos hle, if_neg (not_le.mpr hlt')]
    · rw [if_neg (not_le.mpr hlt), if_pos hlt.le]
  · simp [State.make, hsub]

lemma make_ok_backend (be : Backend) (substance : String)
    (kwargs : List (PropSymbol × Quantity))
    (usys : Option UnitSystem) (lbl : Option String) (st : State)
    (hok : State.make be substance kwargs usys lbl = .ok st) :
    ∃ s1 v1 s2 v2, be (strLower substance) s1 v1 s2 v2 = .ok st.props := by
  unfold State.make at hok
  split at hok
  · split at hok
    · rename_i pa pb
      split at hok
      · exact ⟨pa.1, pa.2.magnitude, pb.1, pb.2.magnitude,
          makeOrdered_ok_backend be substance pa pb usys lbl st hok⟩
      · exact ⟨pb.1, pb.2.magnitude, pa.1, pa.2.magnitude,
          makeOrdered_ok_backend be substance pb pa usys lbl st hok⟩
    · exact absurd hok (by simp)
  · exact absurd hok (by simp)

lemma displayUnit_x (g : Option UnitSystem) :
    displayUnit g .x = ⟨dimlessDim, 1, 0⟩ := by
  cases g with
  | none => rfl
  | some u => cases u <;> rfl

lemma toUnit_canonical (sym : PropSymbol) (val : ℚ) :
    toUnit (displayUnit none sym) val = val := by
  cases sym <;> simp [toUnit, displayUnit, canonicalUnit]

lemma echoResult_value (s1 s2 : PropSymbol) (v1 v2 : ℚ)
    (hne : s1 ≠ s2) (h1 : s1 ≠ .phase) (h2 : s2 ≠ .phase) :
    (echoResult s1 v1 s2 v2).value s1 = some v1 ∧
    (echoResult s1 v1 s2 v2).value s2 = some v2 := by
  cases s1 <;> cases s2 <;>
    simp [echoResult, BackendResult.value] at hne h1 h2 ⊢

lemma echoBackend_echoes : EchoBackend echoBackend := by
  intro sub s1 v1 s2 v2 r hok
  unfold echoBackend at hok
  split at hok
  · rename_i hcond
    cases hok
    exact echoResult_value s1 s2 v1 v2 hcond.1 hcond.2.1 hcond.2.2
  · exact absurd hok (by simp)

lemma recordedBackend1_valid : ValidBackend recordedBackend1 := by
  intro sub s1 v1 s2 v2 r hok
  cases hok
  constructor
  · intro _
    rfl
  · intro hph
    exact absurd hph (by decide)

lemma State.eq_refl (st : State) : State.eq st st = true := by
  simp [State.eq]

/-- C2: two States are equal iff their substances match and every
canonical property value matches, independent of the display unit
systems and labels of each instance; and constructing a State from a
property pair and from its reversal with the same physical values
yields equal States (indeed the same construction result). -/
theorem claim2_state_equality :
    (∀ a b : State, State.eq a b = true ↔
      a.substance = b.substance ∧ a.props = b.props) ∧
    (∀ (a b : State) (ua ub : Option UnitSystem),
      State.eq (setUnits a ua) (setUnits b ub) = State.eq a b) ∧
    (∀ (be : Backend) (substance : String) (pa pb : PropSymbol × Quantity)
        (usys : Option UnitSystem) (lbl : Option String),
      State.make be substance [pa, pb] usys lbl =
        State.make be substance [pb, pa] usys lbl) ∧
    (∀ (be : Backend) (substance : String) (pa pb : PropSymbol × Quantity)
        (usys : Option UnitSystem) (lbl : Option String) (st1 st2 : State),
      State.make be substance [pa, pb] usys lbl = .ok st1 →
      State.make be substance [pb, pa] usys lbl = .ok st2 →
      State.eq st1 st2 = true) := by
  refine ⟨?_, ?_, ?_, ?_⟩
  · intro a b
    simp [State.eq]
  · intro a b ua ub
    simp [State.eq, setUnits]
  · intro be substance pa pb usys lbl
    exact make_swap be substance pa pb usys lbl
  · intro be substance pa pb usys lbl st1 st2 h1 h2
    rw [make_swap be substance pa pb usys lbl] at h1
    rw [h1] at h2
    cases h2
    exact State.eq_refl st1

/-- C2 witness: the tutorial's water state fixed by (T, p) and by
(p, T) with the same physical values produces the same state, and the
two constructions compare equal. -/
theorem claim2_witness :
    State.make recordedBackend1 "water" [(.T, qT400), (.p, qPatm)] none none =
      .ok stTutorial1 ∧
    State.make recordedBackend1 "water" [(.p, qPatm), (.T, qT400)] none none =
      .ok stTutorial1 ∧
    State.eq stTutorial1 stTutorial1 = true :=
  ⟨rfl, rfl,
    claim2_state_equality.2.2.2 recordedBackend1 "water" (.T, qT400) (.p, qPatm)
      none none stTutorial1 stTutorial1 rfl rfl⟩

/-- C5: setting or clearing a unit-system selection never changes a
State's stored canonical values (substance, resolved pair, cached
properties), never changes equality against any other State, and a
property read is purely the stored canonical value converted by the
presentation conversion of the unit system active at read time — no
backend is consulted. -/
theorem claim5_unit_system_presentation_only :
    (∀ (st : State) (o : Option UnitSystem),
      (setUnits st o).substance = st.substance ∧
      (setUnits st o).pair = st.pair ∧
      (setUnits st o).props = st.props ∧
      ∀ sym, canonicalValue (setUnits st o) sym = canonicalValue st sym) ∧
    (∀ (st other : State) (o : Option UnitSystem),
      State.eq (setUnits st o) other = State.eq st other ∧
      State.eq other (setUnits st o) = State.eq other st) ∧
    (∀ (st : State) (g : Option UnitSystem) (sym : PropSymbol),
      State.read st g sym =
        (canonicalValue st sym).map (toUnit (displayUnit (activeUnits st g) sym))) := by
  refine ⟨fun st o => ⟨rfl, rfl, rfl, fun sym => rfl⟩,
    fun st other o => ⟨?_, ?_⟩, fun st g sym => rfl⟩ <;>
  simp [State.eq, setUnits]

/-- C6: the unit-system for a property read is resolved at access time
with fallback order instance override, then process-wide default, then
canonical: an override always wins, a State without an override follows
the process-wide default in force at the moment of the read, and with
neither set the canonical value is returned unconverted. -/
theorem claim6_unit_system_resolution_order :
    (∀ (sub : String) (pr : PropSymbol × PropSymbol) (props : BackendResult)
        (lbl : Option String) (g : Option UnitSystem) (u : UnitSystem),
      activeUnits ⟨sub, pr, props, some u, lbl⟩ g = some u) ∧
    (∀ (sub : String) (pr : PropSymbol × PropSymbol) (props : BackendResult)
        (lbl : Option String) (g : Option UnitSystem),
      activeUnits ⟨sub, pr, props, none, lbl⟩ g = g) ∧
    (∀ (sym : PropSymbol) (val : ℚ), toUnit (displayUnit none sym) val = val) ∧
    (∀ (sub : String) (pr : PropSymbol × PropSymbol) (props : BackendResult)
        (lbl : Option String) (g : Option UnitSystem) (sym : PropSymbol),
      State.read ⟨sub, pr, props, none, lbl⟩ g sym =
        (props.value sym).map (toUnit (displayUnit g sym))) ∧
    (∀ (sub : String) (pr : PropSymbol × PropSymbol) (props : BackendResult)
        (lbl : Option String) (g : Option UnitSystem) (u : UnitSystem) (sym : PropSymbol),
      State.read ⟨sub, pr, props, some u, lbl⟩ g sym =
        (props.value sym).map (toUnit (displayUnit (some u) sym))) :=
  ⟨fun _ _ _ _ _ _ => rfl, fun _ _ _ _ _ => rfl, toUnit_canonical,
    fun _ _ _ _ _ _ => rfl, fun _ _ _ _ _ _ _ => rfl⟩

/-- C8: constructing a State with a number of supplied defining
property keywords different from exactly two fails with the arity class
of StateError, for every backend (so before any backend call). -/
theorem claim8_arity_error (substance : String)
    (kwargs : List (PropSymbol × Quantity))
    (usys : Option UnitSystem) (lbl : Option String)
    (hsub : strLower substance ∈ allowedSubstances)
    (hn : kwargs.length ≠ 2) :
    ∀ be : Backend,
      State.make be substance kwargs usys lbl = .error (.arity kwargs.length) := by
  intro be
  rcases kwargs with _ | ⟨pa, _ | ⟨pb, _ | ⟨pc, rest⟩⟩⟩
  · simp [State.make, hsub]
  · simp [State.make, hsub]
  · exact absurd rfl hn
  · simp [State.make, hsub]

/-- C8 witness: constructing water with no defining properties fails
with the arity error. -/
theorem claim8_witness :
    strLower "water" ∈ allowedSubstances ∧
    ([] : List (PropSymbol × Quantity)).length ≠ 2 ∧
    State.make recordedBackend1 "water" [] none none = .error (.arity 0) :=
  ⟨by decide, by decide,
    claim8_arity_error "water" [] none none (by decide) (by decide) recordedBackend1⟩

/-- C1: whenever a supplied Quantity's physical dimension does not
match the Registry's expected dimension for its property symbol (the
substance being valid and the pair supported, so that no earlier check
fires), construction fails with the dimension class of StateError,
naming an offending symbol and the required dimension, whose message
spells out that symbol (symbol names are pairwise distinct) and the
required dimension; the result is the same for every backend, so the
failure occurs before any backend call and the wrong-dimension value is
never coerced. -/
theorem claim1_wrong_dimension_rejected_before_backend
    (substance : String) (pa pb : PropSymbol × Quantity)
    (usys : Option UnitSystem) (lbl : Option String)
    (hsub : strLower substance ∈ allowedSubstances)
    (hpair : unordPair pa.1 pb.1 ∈ allowedPairs)
    (hmis : ¬(expectedDim pa.1 = some pa.2.dim ∧ expectedDim pb.1 = some pb.2.dim)) :
    (∀ t1 t2 : PropSymbol, propName t1 = propName t2 → t1 = t2) ∧
    ∃ sym d, expectedDim sym = some d ∧
      ((sym = pa.1 ∧ pa.2.dim ≠ d) ∨ (sym = pb.1 ∧ pb.2.dim ≠ d)) ∧
      errorMessage (.dimensions sym d) =
        "The dimensions for " ++ propName sym ++ " must be " ++ dimName d ∧
      ∀ be : Backend,
        State.make be substance [pa, pb] usys lbl = .error (.dimensions sym d) := by
  refine ⟨by decide, ?_⟩
  rcases le_or_lt (propIdx pa.1) (propIdx pb.1) with hle | hlt
  · have hpair' : (pa.1, pb.1) ∈ allowedPairs := by
      unfold unordPair at hpair
      rwa [if_pos hle] at hpair
    obtain ⟨hs1, hs2⟩ := allowed_expectedDim_isSome pa.1 pb.1 hpair'
    obtain ⟨d1, hd1⟩ := Option.isSome_iff_exists.mp hs1
    obtain ⟨d2, hd2⟩ := Option.isSome_iff_exists.mp hs2
    by_cases hfit1 : pa.2.dim = d1
    · have hne2 : pb.2.dim ≠ d2 := by
        intro he
        exact hmis ⟨by rw [hd1, hfit1], by rw [hd2, he]⟩
      refine ⟨pb.1, d2, hd2, Or.inr ⟨rfl, hne2⟩, rfl, fun be => ?_⟩
      rw [make_two be substance pa pb usys lbl hsub, if_pos hle]
      exact makeOrdered_dim_snd be substance pa pb usys lbl d1 d2 hpair' hd1 hfit1 hd2 hne2
    · refine ⟨pa.1, d1, hd1, Or.inl ⟨rfl, hfit1⟩, rfl, fun be => ?_⟩
      rw [make_two be substance pa pb usys lbl hsub, if_pos hle]
      exact makeOrdered_dim_fst be substance pa pb usys lbl d1 hpair' hd1 hfit1
  · have hnle : ¬ propIdx pa.1 ≤ propIdx pb.1 := not_le.mpr hlt
    have hpair' : (pb.1, pa.1) ∈ allowedPairs := by
      unfold unordPair at hpair
      rwa [if_neg hnle] at hpair
    obtain ⟨hs1, hs2⟩ := allowed_expectedDim_isSome pb.1 pa.1 hpair'
    obtain ⟨d1, hd1⟩ := Option.isSome_iff_exists.mp hs1
    obtain ⟨d2, hd2⟩ := Option.isSome_iff_exists.mp hs2
    by_cases hfit1 : pb.2.dim = d1
    · have hne2 : pa.2.dim ≠ d2 := by
        intro he
        exact hmis ⟨by rw [hd2, he], by rw [hd1, hfit1]⟩
      refine ⟨pa.1, d2, hd2, Or.inl ⟨rfl, hne2⟩, rfl, fun be => ?_⟩
      rw [make_two be substance pa pb usys lbl hsub, if_neg hnle]
      exact makeOrdered_dim_snd be substance pb pa usys lbl d1 d2 hpair' hd1 hfit1 hd2 hne2
    · refine ⟨pb.1, d1, hd1, Or.inr ⟨rfl, hfit1⟩, rfl, fun be => ?_⟩
      rw [make_two be substance pa pb usys lbl hsub, if_neg hnle]
      exact makeOrdered_dim_fst be substance pb pa usys lbl d1 hpair' hd1 hfit1

/-- C1 witness: the tutorial's own failing example — water with
v = Q_(1000.0, 'degC') (a temperature-dimensioned value where a
specific volume is expected) and p = Q_(1.0, 'bar'). -/
theorem claim1_witness :
    strLower "water" ∈ allowedSubstances ∧
    unordPair PropSymbol.v PropSymbol.p ∈ allowedPairs ∧
    ¬(expectedDim PropSymbol.v = some tempDim ∧
      expectedDim PropSymbol.p = some pressureDim) ∧
    ((∀ t1 t2 : PropSymbol, propName t1 = propName t2 → t1 = t2) ∧
      ∃ sym d, expectedDim sym = some d ∧
        ((sym = PropSymbol.v ∧ tempDim ≠ d) ∨
          (sym = PropSymbol.p ∧ pressureDim ≠ d)) ∧
        errorMessage (.dimensions sym d) =
          "The dimensions for " ++ propName sym ++ " must be " ++ dimName d ∧
        ∀ be : Backend,
          State.make be "water"
            [(PropSymbol.v, ⟨(1273.15 : ℚ), tempDim⟩),
             (PropSymbol.p, ⟨(100000 : ℚ), pressureDim⟩)] none none =
            .error (.dimensions sym d)) :=
  ⟨by decide, by decide, by decide,
    claim1_wrong_dimension_rejected_before_backend "water"
      (PropSymbol.v, ⟨(1273.15 : ℚ), tempDim⟩)
      (PropSymbol.p, ⟨(100000 : ℚ), pressureDim⟩) none none
      (by decide) (by decide) (by decide)⟩

/-- C4: every pair on the backend-unsupported exclusion list (Tu, Th,
us, in either order) is rejected with the unsupported-pair class of
StateError regardless of the numeric values supplied, and the result is
the same for every backend, so the rejection happens before any backend
call. -/
theorem claim4_unsupported_pairs_rejected (substance : String)
    (a b : PropSymbol) (qa qb : Quantity)
    (usys : Option UnitSystem) (lbl : Option String)
    (hsub : strLower substance ∈ allowedSubstances)
    (hup : unordPair a b ∈ unsupportedPairs) :
    ∀ be : Backend,
      State.make be substance [(a, qa), (b, qb)] usys lbl =
        .error (.unsupportedPair (unordPair a b).1 (unordPair a b).2) := by
  intro be
  rcases le_or_lt (propIdx a) (propIdx b) with hle | hlt
  · have hup' : (a, b) ∈ unsupportedPairs := by
      unfold unordPair at hup
      rwa [if_pos hle] at hup
    have hna : (a, b) ∉ allowedPairs := unsupported_not_allowed a b hup'
    rw [make_two be substance (a, qa) (b, qb) usys lbl hsub, if_pos hle]
    unfold unordPair
    rw [if_pos hle]
    exact makeOrdered_not_allowed be substance (a, qa) (b, qb) usys lbl hna
  · have hnle : ¬ propIdx a ≤ propIdx b := not_le.mpr hlt
    have hup' : (b, a) ∈ unsupportedPairs := by
      unfold unordPair at hup
      rwa [if_neg hnle] at hup
    have hna : (b, a) ∉ allowedPairs := unsupported_not_allowed b a hup'
    rw [make_two be substance (a, qa) (b, qb) usys lbl hsub, if_neg hnle]
    unfold unordPair
    rw [if_neg hnle]
    exact makeOrdered_not_allowed be substance (b, qb) (a, qa) usys lbl hna

/-- C4 witness: the pair (T, u) with dimensionally correct values is
rejected as unsupported for water. -/
theorem claim4_witness :
    strLower "water" ∈ allowedSubstances ∧
    unordPair PropSymbol.T PropSymbol.u ∈ unsupportedPairs ∧
    State.make recordedBackend1 "water"
      [(PropSymbol.T, qT400), (PropSymbol.u, ⟨(2000000 : ℚ), energyDim⟩)]
      none none =
      .error (.unsupportedPair PropSymbol.T PropSymbol.u) :=
  ⟨by decide, by decide,
    claim4_unsupported_pairs_rejected "water" PropSymbol.T PropSymbol.u
      qT400 ⟨(2000000 : ℚ), energyDim⟩ none none (by decide) (by decide)
      recordedBackend1⟩

/-- C3: for every State constructed through a backend that respects the
quality invariant, the quality accessor returns the explicit
"not applicable" sentinel `none` — never zero and never an error —
whenever the state is outside the two-phase region, and a defined
dimensionless fraction in [0, 1] whenever the state is inside it,
whatever unit system is in force. -/
theorem claim3_quality_sentinel (be : Backend) (hbe : ValidBackend be)
    (substance : String) (kwargs : List (PropSymbol × Quantity))
    (usys : Option UnitSystem) (lbl : Option String) (st : State)
    (g : Option UnitSystem)
    (hok : State.make be substance kwargs usys lbl = .ok st) :
    (st.phase ≠ twoPhaseName → State.x st g = none ∧ State.x st g ≠ some 0) ∧
    (st.phase = twoPhaseName → ∃ q, State.x st g = some q ∧ 0 ≤ q ∧ q ≤ 1) := by
  obtain ⟨s1, v1, s2, v2, hbk⟩ := make_ok_backend be substance kwargs usys lbl st hok
  obtain ⟨hout, hin⟩ := hbe _ _ _ _ _ _ hbk
  have hfun : toUnit ⟨dimlessDim, 1, 0⟩ = id := funext fun q => by simp [toUnit]
  have hx : State.x st g = st.props.x := by
    simp [State.x, State.read, canonicalValue, BackendResult.value, displayUnit_x,
      hfun, Option.map_id]
  constructor
  · intro hph
    rw [hx, hout hph]
    exact ⟨rfl, by simp⟩
  · intro hph
    obtain ⟨q, hq, h0, h1⟩ := hin hph
    exact ⟨q, by rw [hx, hq], h0, h1⟩

/-- C3 witness: the tutorial's recorded backend respects the quality
invariant, water at (400 K, 1 atm) is outside the two-phase region, and
its quality reads as the sentinel `none`. -/
theorem claim3_witness :
    ValidBackend recordedBackend1 ∧
    State.make recordedBackend1 "water" [(.T, qT400), (.p, qPatm)] none none =
      .ok stTutorial1 ∧
    stTutorial1.phase ≠ twoPhaseName ∧
    State.x stTutorial1 none = none ∧ State.x stTutorial1 none ≠ some 0 :=
  ⟨recordedBackend1_valid, rfl, by decide,
    (claim3_quality_sentinel recordedBackend1 recordedBackend1_valid "water"
      [(.T, qT400), (.p, qPatm)] none none stTutorial1 none rfl).1 (by decide)⟩

/-- C7 counterexample: in the tutorial's own recorded run, water fixed
by T = 400 K and p = 1 atm (101325 Pa in canonical units) reads back
p = 101324.99999999953 Pa, which is not equal to the input value, so
the exact round-trip claimed does not hold. -/
theorem claim7_counterexample :
    (State.make recordedBackend1 "water" [(.T, qT400), (.p, qPatm)] none none).map
        (fun st => canonicalValue st .p) = .ok (some recordedWater1.p) ∧
    Q_ 1 "atm" = some qPatm ∧
    recordedWater1.p ≠ qPatm.magnitude := by
  refine ⟨rfl, by norm_num [Q_, unitOf, qPatm], ?_⟩
  norm_num [recordedWater1, qPatm]

/-- C7 (amended): reading back the two input properties in canonical
units agrees with the inputs within backend tolerance (relative error
at most 1e-9) rather than exactly, as the tutorial's recorded reads
show; and under a backend that echoes its inputs exactly, the stored
canonical values of the two input properties equal the input values
exactly, for every substance and supported pair. -/
theorem claim7_roundtrip_amended :
    (∀ be : Backend, EchoBackend be →
      ∀ (substance : String) (pa pb : PropSymbol × Quantity)
        (usys : Option UnitSystem) (lbl : Option String) (st : State),
      State.make be substance [pa, pb] usys lbl = .ok st →
      canonicalValue st pa.1 = some pa.2.magnitude ∧
      canonicalValue st pb.1 = some pb.2.magnitude) ∧
    |recordedWater1.T - qT400.magnitude| ≤ |qT400.magnitude| / 10 ^ 9 ∧
    |recordedWater1.p - qPatm.magnitude| ≤ |qPatm.magnitude| / 10 ^ 9 ∧
    |recordedH5read - 2000000| ≤ 2000000 / 10 ^ 9 ∧
    |recordedS5read - 3100| ≤ 3100 / 10 ^ 9 := by
  refine ⟨?_, ?_, ?_, ?_, ?_⟩
  · intro be hbe substance pa pb usys lbl st hok
    by_cases hsub : strLower substance ∈ allowedSubstances
    · rw [make_two be substance pa pb usys lbl hsub] at hok
      split at hok
      · have hbk := makeOrdered_ok_backend be substance pa pb usys lbl st hok
        have hv := hbe _ _ _ _ _ _ hbk
        exact ⟨hv.1, hv.2⟩
      · have hbk := makeOrdered_ok_backend be substance pb pa usys lbl st hok
        have hv := hbe _ _ _ _ _ _ hbk
        exact ⟨hv.2, hv.1⟩
    · simp [State.make, hsub] at hok
  all_goals rw [abs_le]
  all_goals constructor <;>
    norm_num [recordedWater1, recordedH5read, recordedS5read, qT400, qPatm]

/-- C7 witness: with the echoing backend, water fixed by T = 400 K and
p = 101325 Pa succeeds and both stored canonical input values equal the
inputs exactly. -/
theorem claim7_witness :
    EchoBackend echoBackend ∧
    State.make echoBackend "water" [(.T, qT400), (.p, qPatm)] none none =
      .ok stEcho ∧
    canonicalValue stEcho .T = some qT400.magnitude ∧
    canonicalValue stEcho .p = some qPatm.magnitude :=
  ⟨echoBackend_echoes, rfl,
    (claim7_roundtrip_amended.1 echoBackend echoBackend_echoes "water"
      (.T, qT400) (.p, qPatm) none none stEcho rfl).1,
    (claim7_roundtrip_amended.1 echoBackend echoBackend_echoes "water"
      (.T, qT400) (.p, qPatm) none none stEcho rfl).2⟩

/-- C9 counterexample: in the tutorial's recorded run the phase
accessor of State(water, T=400 K, p=101325 Pa) reads the backend's
label "gas", not the literal "superheated vapor". -/
theorem claim9_counterexample :
    (State.make recordedBackend1 "water" [(.T, qT400), (.p, qPatm)] none none).map
      State.phase = .ok "gas" ∧
    ("gas" : String) ≠ "superheated vapor" :=
  ⟨rfl, by decide⟩

/-- C9 (amended): for State(water, T=400 K, p=101325 Pa) — built from
Q_(400, 'K') and Q_(101325, 'Pa') — the phase accessor reads "gas"
(the backend's label for a superheated vapor), the quality accessor
reads the undefined sentinel `none`, and the canonical specific volume
is approximately 1.802 m³/kg (within 1e-4). -/
theorem claim9_concrete_scenario_amended :
    Q_ 400 "K" = some qT400 ∧
    Q_ 101325 "Pa" = some qPatm ∧
    (State.make recordedBackend1 "water" [(.T, qT400), (.p, qPatm)] none none).map
      (fun st => (st.phase, State.x st none, canonicalValue st .v)) =
      .ok ("gas", none, some recordedWater1.v) ∧
    |recordedWater1.v - 1802 / 1000| ≤ 1 / 10000 := by
  refine ⟨by norm_num [Q_, unitOf, qT400], by norm_num [Q_, unitOf, qPatm], rfl, ?_⟩
  rw [abs_le]
  constructor <;> norm_num [recordedWater1]

/-- C10: a quality supplied as Q_(10.0, 'percent') is exactly the same
Quantity as Q_(0.1, 'dimensionless'), and constructing a State with
either form of the quality input produces the same result, for every
backend, substance and companion property. -/
theorem claim10_percent_dimensionless (q q' : Quantity)
    (hq : Q_ 10 "percent" = some q)
    (hq' : Q_ (1 / 10) "dimensionless" = some q') :
    q = q' ∧
    ∀ (be : Backend) (substance : String) (pa : PropSymbol × Quantity)
      (usys : Option UnitSystem) (lbl : Option String),
      State.make be substance [pa, (.x, q)] usys lbl =
        State.make be substance [pa, (.x, q')] usys lbl := by
  have h1 : q = ⟨1 / 10, dimlessDim⟩ := by
    have hv : Q_ 10 "percent" = some ⟨1 / 10, dimlessDim⟩ := by
      norm_num [Q_, unitOf]
    rw [hv] at hq
    exact (Option.some_inj.mp hq).symm
  have h2 : q' = ⟨1 / 10, dimlessDim⟩ := by
    have hv : Q_ (1 / 10) "dimensionless" = some ⟨1 / 10, dimlessDim⟩ := by
      norm_num [Q_, unitOf]
    rw [hv] at hq'
    exact (Option.some_inj.mp hq').symm
  refine ⟨by rw [h1, h2], fun be substance pa usys lbl => by rw [h1, h2]⟩

/-- C10 witness: the two spellings of 10 % quality produce the same
Quantity and the same construction result for water with T = 400 K. -/
theorem claim10_witness :
    Q_ 10 "percent" = some ⟨1 / 100 * 10 + 0, dimlessDim⟩ ∧
    Q_ (1 / 10) "dimensionless" = some ⟨1 * (1 / 10) + 0, dimlessDim⟩ ∧
    (⟨1 / 100 * 10 + 0, dimlessDim⟩ : Quantity) = ⟨1 * (1 / 10) + 0, dimlessDim⟩ ∧
    State.make recordedBackend1 "water"
      [(.T, qT400), (.x, ⟨1 / 100 * 10 + 0, dimlessDim⟩)] none none =
      State.make recordedBackend1 "water"
        [(.T, qT400), (.x, ⟨1 * (1 / 10) + 0, dimlessDim⟩)] none none :=
  ⟨rfl, rfl,
    (claim10_percent_dimensionless ⟨1 / 100 * 10 + 0, dimlessDim⟩
      ⟨1 * (1 / 10) + 0, dimlessDim⟩ rfl rfl).1,
    (claim10_percent_dimensionless ⟨1 / 100 * 10 + 0, dimlessDim⟩
      ⟨1 * (1 / 10) + 0, dimlessDim⟩ rfl rfl).2 recordedBackend1 "water"
      (.T, qT400) none none⟩
